import Mathlib

/-!
Verification of the ALM modeler's position data model and liquidity gap
engine.  The Python sources (`src/models/positions.py` and
`src/analytics/liquidity.py`) are shallowly embedded: `Decimal` values
become `ℚ`, calendar dates become `ℤ` day numbers (so `(d1 - d2).days`
is plain integer subtraction), optional values become `Option`, and
pydantic validation becomes an `Except String` constructor.
-/

namespace ALM

/-- Instrument types, from the `InstrumentType` enum. -/
inductive InstrumentType
  | loan_corporate
  | loan_retail
  | deposit_corporate
  | deposit_retail
  | bond
  | equity
  | cash
  | other
deriving DecidableEq, Repr

/-- The string value of each `InstrumentType` member. -/
def InstrumentType.value : InstrumentType → String
  | .loan_corporate => "loan_corporate"
  | .loan_retail => "loan_retail"
  | .deposit_corporate => "deposit_corporate"
  | .deposit_retail => "deposit_retail"
  | .bond => "bond"
  | .equity => "equity"
  | .cash => "cash"
  | .other => "other"

/-- Currencies, from the `Currency` enum. -/
inductive Currency
  | RUB
  | USD
  | EUR
  | CNY
  | GBP
deriving DecidableEq, Repr

/-- Rate types, from the `RateType` enum. -/
inductive RateType
  | fixed
  | floating
  | zero
deriving DecidableEq, Repr

/-- Repricing frequencies, from the `RepricingFrequency` enum. -/
inductive RepricingFrequency
  | daily
  | monthly
  | quarterly
  | semiannual
  | annual
deriving DecidableEq, Repr

/-- One generated cash-flow record: the dict
`{date, principal, interest, total}` built by `get_cash_flows`. -/
structure CashFlow where
  date : ℤ
  principal : ℚ
  interest : ℚ
  total : ℚ
deriving DecidableEq, Repr

/-- One amortization-schedule entry `{date, principal, interest}`. -/
structure SchedEntry where
  date : ℤ
  principal : ℚ
  interest : ℚ
deriving DecidableEq, Repr

/-- Python truthiness of an `Optional[Decimal]`: `None` and `0` are falsy. -/
def decimalTruthy : Option ℚ → Bool
  | none => false
  | some q => q ≠ 0

/-- Python truthiness of an `Optional[List]`: `None` and `[]` are falsy. -/
def listTruthy {α : Type} : Option (List α) → Bool
  | none => false
  | some [] => false
  | some (_ :: _) => true

/-- Embeds `BalanceSheetInstrument.get_time_to_maturity_years` for an instrument
whose effective maturity is its contractual `maturity_date`:
`Decimal(days) / Decimal(365)` with `days = (maturity - as_of).days`. -/
def get_time_to_maturity_years (as_of_date : ℤ) (maturity_date : Option ℤ) : Option ℚ :=
  maturity_date.map (fun m => ((m - as_of_date : ℤ) : ℚ) / 365)

/-- The fields of `LoanBase` that its `get_cash_flows` reads. -/
structure LoanBase where
  as_of_date : ℤ
  amount : ℚ
  maturity_date : Option ℤ
  rate : Option ℚ
  is_amortizing : Bool
  amortization_schedule : Option (List SchedEntry)
deriving Repr

/-- Embeds `LoanBase.get_cash_flows`: empty when `maturity_date` is `None`;
the schedule branch when `self.is_amortizing and self.amortization_schedule`
is truthy; otherwise the bullet branch, where the interest is
`amount * rate * time_to_maturity` guarded by Python truthiness of
`rate` and of `time_to_maturity`. -/
def LoanBase.get_cash_flows (loan : LoanBase) : List CashFlow :=
  match loan.maturity_date with
  | none => []
  | some m =>
    if loan.is_amortizing && listTruthy loan.amortization_schedule then
      ((loan.amortization_schedule.getD []).filter
          (fun p => loan.as_of_date ≤ p.date)).map
        (fun p => ⟨p.date, p.principal, p.interest, p.principal + p.interest⟩)
    else
      let interest : ℚ :=
        if decimalTruthy loan.rate then
          let ttm : ℚ := ((m - loan.as_of_date : ℤ) : ℚ) / 365
          if ttm ≠ 0 then loan.amount * loan.rate.getD 0 * ttm else 0
        else 0
      [⟨m, loan.amount, interest, loan.amount + interest⟩]

/-- The fields of `DepositBase` that its `get_cash_flows` reads. -/
structure DepositBase where
  as_of_date : ℤ
  amount : ℚ
  maturity_date : Option ℤ
  rate : Option ℚ
  is_demand_deposit : Bool
deriving Repr

/-- Embeds `DepositBase.get_cash_flows`: empty for demand deposits without a
maturity and for any deposit without a maturity; otherwise one record at
maturity with negated principal, interest and total. -/
def DepositBase.get_cash_flows (dep : DepositBase) : List CashFlow :=
  if dep.is_demand_deposit && dep.maturity_date = none then []
  else
    match dep.maturity_date with
    | none => []
    | some m =>
      let interest : ℚ :=
        if decimalTruthy dep.rate then
          let ttm : ℚ := ((m - dep.as_of_date : ℤ) : ℚ) / 365
          if ttm ≠ 0 then dep.amount * dep.rate.getD 0 * ttm else 0
        else 0
      [⟨m, -dep.amount, -interest, -(dep.amount + interest)⟩]

/-- The interest value the specification assigns to a bullet flow:
`amount * rate * days / 365` when the rate is set, `0` when it is `None`. -/
def specBulletInterest (amount : ℚ) (rate : Option ℚ) (days : ℤ) : ℚ :=
  match rate with
  | none => 0
  | some r => amount * r * ((days : ℚ) / 365)

/-- Embeds `LiquidityGapAnalyzer._define_buckets`: the fixed ordered bucket table
`(bucket_name, days_from, days_to)`, `days_to = None` meaning unbounded. -/
def defineBuckets : List (String × ℤ × Option ℤ) :=
  [("Overnight", 0, some 0),
   ("1-7 days", 1, some 7),
   ("8-30 days", 8, some 30),
   ("1-3 months", 31, some 90),
   ("3-6 months", 91, some 180),
   ("6-12 months", 181, some 365),
   ("1-2 years", 366, some 730),
   ("2-3 years", 731, some 1095),
   ("3-5 years", 1096, some 1825),
   ("5+ years", 1826, none)]

/-- Whether one bucket row matches a day count, as tested inside the loop
of `_get_bucket`. -/
def bucketMatches (b : String × ℤ × Option ℤ) (d : ℤ) : Bool :=
  match b.2.2 with
  | none => b.2.1 ≤ d
  | some hi => b.2.1 ≤ d && d ≤ hi

/-- The first-match loop of `_get_bucket`, falling through to `Overdue`. -/
def getBucketAux : List (String × ℤ × Option ℤ) → ℤ → String
  | [], _ => "Overdue"
  | b :: rest, d => if bucketMatches b d then b.1 else getBucketAux rest d

/-- Embeds `LiquidityGapAnalyzer._get_bucket`: `None` maps to `5+ years`,
otherwise the first matching bucket, else `Overdue`. -/
def getBucket (days_to_maturity : Option ℤ) : String :=
  match days_to_maturity with
  | none => "5+ years"
  | some d => getBucketAux defineBuckets d

/-- The per-position fields read by `LiquidityGapAnalyzer.calculate_gap`. -/
structure GapPos where
  position_id : String
  instrument_type : InstrumentType
  currency : Currency
  amount : ℚ
  maturity_date : Option ℤ
deriving Repr

/-- The analyzer state: positions, analysis date, FX table, base currency. -/
structure Analyzer where
  positions : List GapPos
  as_of_date : ℤ
  fx_rates : Currency → Option ℚ
  base_currency : Currency

/-- Embeds `_classify_position`: loans and bonds are assets, deposits are
liabilities, anything else is `Unknown`. -/
def classifyPosition : InstrumentType → String
  | .loan_corporate => "Asset"
  | .loan_retail => "Asset"
  | .bond => "Asset"
  | .deposit_corporate => "Liability"
  | .deposit_retail => "Liability"
  | _ => "Unknown"

/-- Embeds `_convert_to_base_currency`: identity in the base currency, else
multiply by the FX rate, a missing rate defaulting to `1.0`. -/
def convertToBaseCurrency (A : Analyzer) (amount : ℚ) (c : Currency) : ℚ :=
  if c = A.base_currency then amount
  else
    match A.fx_rates c with
    | none => amount * 1
    | some r => amount * r

/-- Embeds `_calculate_days_to_maturity`: `(maturity_date - as_of_date).days`. -/
def calculateDaysToMaturity (A : Analyzer) (maturity_date : Option ℤ) : Option ℤ :=
  maturity_date.map (fun m => m - A.as_of_date)

/-- The bucket a position lands in during `calculate_gap`. -/
def posBucket (A : Analyzer) (p : GapPos) : String :=
  getBucket (calculateDaysToMaturity A p.maturity_date)

/-- Embeds `bucket_order = [b[0] for b in self.buckets] + ['Overdue']`. -/
def bucketOrder : List String :=
  defineBuckets.map (fun b => b.1) ++ ["Overdue"]

/-- The buckets kept after reindexing: canonical order, restricted to
buckets receiving at least one position (`b in pivot.index`). -/
def occupiedBuckets (A : Analyzer) : List String :=
  bucketOrder.filter (fun b => A.positions.any (fun p => posBucket A p = b))

/-- The pivot cell: sum of `amount_base` over positions of one bucket and
one classification (`pivot_table` with `aggfunc='sum'`, `fill_value=0`). -/
def pivotCell (A : Analyzer) (b cls : String) : ℚ :=
  ((A.positions.filter
      (fun p => posBucket A p = b && classifyPosition p.instrument_type = cls)).map
    (fun p => convertToBaseCurrency A p.amount p.currency)).sum

/-- One row of the final gap table. -/
structure GapRow where
  bucket : String
  asset : ℚ
  liability : ℚ
  gap : ℚ
  cumgap : ℚ
deriving DecidableEq, Repr

/-- The reindexed Asset/Liability pivot, one `(bucket, Asset, Liability)`
triple per occupied bucket in canonical order. -/
def pivotRows (A : Analyzer) : List (String × ℚ × ℚ) :=
  (occupiedBuckets A).map (fun b => (b, pivotCell A b "Asset", pivotCell A b "Liability"))

/-- Embeds `pivot['Gap'] = Asset - Liability` and
`pivot['Cumulative Gap'] = pivot['Gap'].cumsum()`, carried by an
accumulator down the ordered rows. -/
def addGapColumns (acc : ℚ) : List (String × ℚ × ℚ) → List GapRow
  | [] => []
  | (b, a, l) :: rest => ⟨b, a, l, a - l, acc + (a - l)⟩ :: addGapColumns (acc + (a - l)) rest

/-- The bucket rows of the gap table, before the `TOTAL` row. -/
def bucketGapRows (A : Analyzer) : List GapRow :=
  addGapColumns 0 (pivotRows A)

/-- The appended `TOTAL` row: column sums for Asset, Liability and Gap;
for Cumulative Gap the last bucket row's value (`iloc[-1]`), `0` when
there are no rows. -/
def totalRow (A : Analyzer) : GapRow :=
  let rows := bucketGapRows A
  ⟨"TOTAL",
   (rows.map (fun r => r.asset)).sum,
   (rows.map (fun r => r.liability)).sum,
   (rows.map (fun r => r.gap)).sum,
   match rows.getLast? with
   | some r => r.cumgap
   | none => 0⟩

/-- Embeds `LiquidityGapAnalyzer.calculate_gap`: the ordered bucket rows followed
by the `TOTAL` row. -/
def calculate_gap (A : Analyzer) : List GapRow :=
  bucketGapRows A ++ [totalRow A]

/-- Embeds `self.gap_df.loc[bucket, column]` guarded by
`if bucket in self.gap_df.index`: a missing row contributes `0`. -/
def tableGet (rows : List GapRow) (b : String) (f : GapRow → ℚ) : ℚ :=
  match rows.find? (fun r => r.bucket = b) with
  | some r => f r
  | none => 0

/-- The three `liquid_buckets` of `calculate_ratios`. -/
def liquidBuckets : List String :=
  ["Overnight", "1-7 days", "8-30 days"]

/-- The value of the liquidity coverage ratio: a finite float or `inf`. -/
inductive LCRValue
  | val (q : ℚ)
  | inf
deriving DecidableEq, Repr

/-- The dictionary returned by `calculate_ratios`. -/
structure Ratios where
  liquid_assets : ℚ
  short_term_liabilities : ℚ
  liquidity_coverage_ratio : LCRValue
  total_assets : ℚ
  total_liabilities : ℚ
  gap_30d : ℚ
  cumulative_gap_30d : ℚ
deriving Repr

/-- Embeds `LiquidityGapAnalyzer.calculate_ratios` over the freshly computed gap
table.  `cumulative_gap_30d` repeats, verbatim, the expression computing
`gap_30d`. -/
def calculate_ratios (A : Analyzer) : Ratios :=
  let g := calculate_gap A
  let liquid_assets := (liquidBuckets.map (fun b => tableGet g b (fun r => r.asset))).sum
  let st_liabilities := (liquidBuckets.map (fun b => tableGet g b (fun r => r.liability))).sum
  { liquid_assets := liquid_assets,
    short_term_liabilities := st_liabilities,
    liquidity_coverage_ratio :=
      if 0 < st_liabilities then .val (liquid_assets / st_liabilities) else .inf,
    total_assets := tableGet g "TOTAL" (fun r => r.asset),
    total_liabilities := tableGet g "TOTAL" (fun r => r.liability),
    gap_30d := (liquidBuckets.map (fun b => tableGet g b (fun r => r.gap))).sum,
    cumulative_gap_30d := (liquidBuckets.map (fun b => tableGet g b (fun r => r.gap))).sum }

/-- The constructor input of a `BalanceSheetInstrument`: the fields read
by the pydantic validators. -/
structure BSIInput where
  position_id : String
  as_of_date : ℤ
  amount : ℚ
  start_date : ℤ
  maturity_date : Option ℤ
  rate : Option ℚ
  rate_type : RateType
  repricing_date : Option ℤ
  repricing_frequency : Option RepricingFrequency
deriving Repr

/-- Construction of a `BalanceSheetInstrument`: the field validators
(`position_id_must_be_nonempty`, `amount_must_be_nonzero`) in field
order, then the model validators `validate_dates` and
`validate_rate_logic`, each raising the source's message; a fully valid
input yields the instance. -/
def mkBalanceSheetInstrument (i : BSIInput) : Except String BSIInput :=
  if i.position_id.toList.all Char.isWhitespace then .error "Position ID cannot be empty"
  else if i.amount = 0 then .error "Amount cannot be zero"
  else if i.as_of_date < i.start_date then
    .error "start_date cannot be after as_of_date"
  else if (match i.maturity_date with
           | some m => decide (m ≤ i.start_date)
           | none => false) then
    .error "maturity_date must be after start_date"
  else if (match i.repricing_date with
           | some r => decide (r < i.as_of_date)
           | none => false) then
    .error "repricing_date cannot be before as_of_date"
  else if i.rate_type = RateType.floating && i.repricing_frequency = none then
    .error "floating rate requires repricing_frequency"
  else if i.rate_type = RateType.floating && i.repricing_date = none then
    .error "floating rate requires repricing_date"
  else .ok i

/-- All construction invariants of `BalanceSheetInstrument` hold. -/
def validBSIInput (i : BSIInput) : Prop :=
  i.position_id.toList.all Char.isWhitespace = false ∧
  i.amount ≠ 0 ∧
  i.start_date ≤ i.as_of_date ∧
  (match i.maturity_date with
   | some m => i.start_date < m
   | none => True) ∧
  (match i.repricing_date with
   | some r => i.as_of_date ≤ r
   | none => True) ∧
  (i.rate_type = RateType.floating →
    i.repricing_frequency ≠ none ∧ i.repricing_date ≠ none)

/-- String-to-enum coercion `InstrumentType(instrument_type)`. -/
def instrumentTypeFromString (s : String) : Option InstrumentType :=
  if s = "loan_corporate" then some .loan_corporate
  else if s = "loan_retail" then some .loan_retail
  else if s = "deposit_corporate" then some .deposit_corporate
  else if s = "deposit_retail" then some .deposit_retail
  else if s = "bond" then some .bond
  else if s = "equity" then some .equity
  else if s = "cash" then some .cash
  else if s = "other" then some .other
  else none

/-- The four concrete position classes of the factory's `class_mapping`. -/
inductive PositionClass
  | corporateLoan
  | retailLoan
  | corporateDeposit
  | retailDeposit
deriving DecidableEq, Repr

/-- The factory's `class_mapping`: only the four loan/deposit types. -/
def classMapping : InstrumentType → Option PositionClass
  | .loan_corporate => some .corporateLoan
  | .loan_retail => some .retailLoan
  | .deposit_corporate => some .corporateDeposit
  | .deposit_retail => some .retailDeposit
  | _ => none

/-- Embeds `create_position_from_dict`, restricted to the dispatch on
`instrument_type` (given here as the raw string, `none` when the key is
absent): a falsy value is rejected first, then the string-to-enum
coercion, then the class-mapping lookup. -/
def create_position_from_dict (instrument_type : Option String) : Except String PositionClass :=
  match instrument_type with
  | none => .error "instrument_type is required"
  | some s =>
    if s = "" then .error "instrument_type is required"
    else
      match instrumentTypeFromString s with
      | none => .error ("Unknown instrument_type: " ++ s)
      | some t =>
        match classMapping t with
        | none => .error ("No class mapping for instrument_type: " ++ t.value)
        | some c => .ok c

/-- Coupon frequencies of a bond, from the spec's `CouponFrequency`
(zero/quarterly/semiannual/annual). -/
inductive CouponFrequency
  | zero
  | quarterly
  | semiannual
  | annual
deriving DecidableEq, Repr

/-- A calendar date as year/month/day, needed for the month-stepped
coupon schedule of a bond. -/
structure BDate where
  year : ℤ
  month : ℤ
  day : ℤ
deriving DecidableEq, Repr

/-- Lexicographic date comparison. -/
def BDate.le (a b : BDate) : Bool :=
  a.year < b.year ||
  (a.year = b.year && (a.month < b.month || (a.month = b.month && a.day ≤ b.day)))

/-- Advance a date by a whole number of months, keeping the day. -/
def BDate.addMonths (d : BDate) (k : ℤ) : BDate :=
  let m0 := d.month - 1 + k
  ⟨d.year + m0 / 12, m0 % 12 + 1, d.day⟩

/-- Modelled from the spec: the `Bond` class is imported from
`models.positions` by the unit tests but is absent from
`src/models/positions.py`; these are the fields its cash-flow contract
(spec §4.2) reads. -/
structure Bond where
  as_of_date : BDate
  amount : ℚ
  maturity_date : Option BDate
  face_value : ℚ
  coupon_rate : ℚ
  coupon_frequency : CouponFrequency
  next_coupon_date : Option BDate
deriving Repr

/-- One bond cash-flow record, tagged `type = "coupon" | "maturity"`. -/
structure BondFlow where
  date : BDate
  principal : ℚ
  interest : ℚ
  type : String
deriving DecidableEq, Repr

/-- Modelled from the spec: coupon payments per year at each frequency. -/
def paymentsPerYear : CouponFrequency → ℚ
  | .zero => 0
  | .quarterly => 4
  | .semiannual => 2
  | .annual => 1

/-- Modelled from the spec: months between consecutive coupons
(quarterly = 3, semiannual = 6, annual = 12). -/
def monthsPerPeriod : CouponFrequency → ℤ
  | .zero => 0
  | .quarterly => 3
  | .semiannual => 6
  | .annual => 12

/-- Coupon dates from `cur` to `maturity` inclusive, stepping by `step`
months; `fuel` bounds the recursion. -/
def couponDates (maturity : BDate) (step : ℤ) : ℕ → BDate → List BDate
  | 0, _ => []
  | fuel + 1, cur =>
    if cur.le maturity then cur :: couponDates maturity step fuel (cur.addMonths step)
    else []

/-- An upper bound on the number of coupon periods between two dates. -/
def couponFuel (cur maturity : BDate) : ℕ :=
  ((maturity.year - cur.year + 1) * 12 + 1).toNat

/-- Modelled from the spec: `Bond.get_cash_flows` (§4.2).  Zero-coupon
bonds yield the single `"maturity"` record with `principal = amount` and
`interest = 0`; coupon-bearing bonds yield one `"coupon"` record per
coupon date from `next_coupon_date` to maturity at the frequency
interval, scaled by `number_of_bonds = amount / face_value`, followed by
the `"maturity"` record. -/
def Bond.get_cash_flows (b : Bond) : List BondFlow :=
  match b.maturity_date with
  | none => []
  | some m =>
    if b.coupon_frequency = CouponFrequency.zero then
      [⟨m, b.amount, 0, "maturity"⟩]
    else
      let coupons :=
        match b.next_coupon_date with
        | none => []
        | some nc =>
          let number_of_bonds := b.amount / b.face_value
          let coupon_payment :=
            b.face_value * b.coupon_rate / paymentsPerYear b.coupon_frequency
          (couponDates m (monthsPerPeriod b.coupon_frequency) (couponFuel nc m) nc).map
            (fun d => ⟨d, 0, coupon_payment * number_of_bonds, "coupon"⟩)
      coupons ++ [⟨m, b.amount, 0, "maturity"⟩]

/-- A bullet corporate loan: 100 units, one year to maturity, 10% rate. -/
def bulletLoanExample : LoanBase :=
  ⟨0, 100, some 365, some (1/10), false, none⟩

/-- An amortizing loan with a schedule but no maturity date. -/
def amortizingNoMaturityLoan : LoanBase :=
  ⟨0, 100, none, none, true, some [⟨10, 50, 5⟩]⟩

/-- An amortizing loan with a maturity date and a two-entry schedule, one
entry before the as-of date. -/
def amortizingLoanExample : LoanBase :=
  ⟨0, 100, some 365, some (1/10), true, some [⟨-5, 1, 1⟩, ⟨10, 50, 5⟩]⟩

/-- A term deposit: 100 units, two years to maturity, 5% rate. -/
def termDepositExample : DepositBase :=
  ⟨0, 100, some 730, some (1/20), false⟩

/-- The unit tests' zero-coupon bond: $1M par, maturing 2027-01-01. -/
def zeroCouponBondExample : Bond :=
  ⟨⟨2024, 12, 1⟩, 1000000, some ⟨2027, 1, 1⟩, 1000000, 0, CouponFrequency.zero, none⟩

/-- A book holding a single short-dated loan and no deposits. -/
def assetOnlyBook : Analyzer :=
  ⟨[⟨"L1", InstrumentType.loan_corporate, Currency.RUB, 100, some 5⟩],
   0, fun _ => none, Currency.RUB⟩

/-- A small mixed book: two loans, a term deposit, a perpetual deposit. -/
def mixedBook : Analyzer :=
  ⟨[⟨"L1", InstrumentType.loan_corporate, Currency.RUB, 100, some 5⟩,
    ⟨"L2", InstrumentType.loan_retail, Currency.RUB, 200, some 400⟩,
    ⟨"D1", InstrumentType.deposit_retail, Currency.RUB, 50, some 5⟩,
    ⟨"D2", InstrumentType.deposit_corporate, Currency.RUB, 80, none⟩],
   0, fun _ => none, Currency.RUB⟩

/-- A book holding a single deposit with a negative (signed) amount
maturing in five days: amounts are only required to be non-zero. -/
def negativeDepositBook : Analyzer :=
  ⟨[⟨"D1", InstrumentType.deposit_retail, Currency.RUB, -100, some 5⟩],
   0, fun _ => none, Currency.RUB⟩

/-- A constructor input with a zero amount. -/
def inputAmountZero : BSIInput :=
  ⟨"p1", 10, 0, 0, some 20, none, RateType.fixed, none, none⟩

/-- A constructor input whose maturity date equals its start date. -/
def inputMaturityEqStart : BSIInput :=
  ⟨"p1", 10, 5, 0, some 0, none, RateType.fixed, none, none⟩

/-- A floating-rate constructor input without a repricing frequency. -/
def inputFloatingNoFreq : BSIInput :=
  ⟨"p1", 10, 5, 0, some 20, none, RateType.floating, some 15, none⟩

/-- A constructor input satisfying every construction invariant. -/
def inputValid : BSIInput :=
  ⟨"p1", 10, 5, 0, some 20, some (1/10), RateType.floating, some 15,
   some RepricingFrequency.monthly⟩

lemma code_interest_eq_spec (amount : ℚ) (rate : Option ℚ) (as_of m : ℤ) :
    (if decimalTruthy rate = true then
       if (((m - as_of : ℤ) : ℚ) / 365) ≠ 0 then
         amount * rate.getD 0 * (((m - as_of : ℤ) : ℚ) / 365)
       else 0
     else 0) = specBulletInterest amount rate (m - as_of) := by
  cases rate with
  | none => simp [decimalTruthy, specBulletInterest]
  | some r =>
    simp only [decimalTruthy, specBulletInterest, Option.getD_some, decide_eq_true_eq]
    split_ifs with h1 h2
    · rfl
    · rw [not_not] at h2
      rw [h2, mul_zero]
    · rw [not_not] at h1
      rw [h1, mul_zero, zero_mul]

/-- C1: a loan that is not amortizing-with-a-schedule yields no cash flow
when `maturity_date` is absent, and otherwise exactly one record at
maturity with `principal = amount`,
`interest = amount * rate * days / 365` (`0` when `rate` is `None`) and
`total = principal + interest`. -/
theorem loan_bullet_cash_flows_C1 (loan : LoanBase)
    (h : ¬(loan.is_amortizing = true ∧ listTruthy loan.amortization_schedule = true)) :
    (loan.maturity_date = none → loan.get_cash_flows = []) ∧
    (∀ m, loan.maturity_date = some m →
      loan.get_cash_flows =
        [⟨m, loan.amount,
          specBulletInterest loan.amount loan.rate (m - loan.as_of_date),
          loan.amount + specBulletInterest loan.amount loan.rate (m - loan.as_of_date)⟩]) := by
  have hfalse : (loan.is_amortizing && listTruthy loan.amortization_schedule) = false := by
    cases ha : loan.is_amortizing <;> cases hb : listTruthy loan.amortization_schedule <;>
      simp_all
  constructor
  · intro hm
    simp [LoanBase.get_cash_flows, hm]
  · intro m hm
    simp only [LoanBase.get_cash_flows, hm, hfalse, Bool.false_eq_true, if_false]
    rw [code_interest_eq_spec loan.amount loan.rate loan.as_of_date m]

/-- Witness for C1: the example bullet loan has one flow at day 365 with
interest `100 * (1/10) * (365/365) = 10`. -/
theorem loan_bullet_cash_flows_C1_witness :
    bulletLoanExample.get_cash_flows = [⟨365, 100, 10, 110⟩] := by
  have h := loan_bullet_cash_flows_C1 bulletLoanExample (by decide)
  rw [(h.2 365 rfl : _)]
  norm_num [specBulletInterest, bulletLoanExample]

/-- C4: a term deposit (maturity date present) yields exactly one record
at maturity with negated principal, interest and total. -/
theorem deposit_term_cash_flows_C4 (dep : DepositBase) (m : ℤ)
    (hm : dep.maturity_date = some m) :
    dep.get_cash_flows =
      [⟨m, -dep.amount,
        -(specBulletInterest dep.amount dep.rate (m - dep.as_of_date)),
        -(dep.amount + specBulletInterest dep.amount dep.rate (m - dep.as_of_date))⟩] := by
  simp only [DepositBase.get_cash_flows, hm]
  rw [code_interest_eq_spec dep.amount dep.rate dep.as_of_date m]
  simp

/-- Witness for C4: the example term deposit has one flow at day 730 with
principal `-100`, interest `-(100 * (1/20) * 2) = -10`, total `-110`. -/
theorem deposit_term_cash_flows_C4_witness :
    termDepositExample.get_cash_flows = [⟨730, -100, -10, -110⟩] := by
  rw [deposit_term_cash_flows_C4 termDepositExample 730 rfl]
  norm_num [specBulletInterest, termDepositExample]

/-- Counterexample to C9 as stated: an amortizing loan carrying a
schedule whose single entry falls after the as-of date, but with no
`maturity_date`, yields the empty sequence instead of one record per
eligible entry. -/
theorem amortizing_schedule_C9_counterexample :
    amortizingNoMaturityLoan.is_amortizing = true ∧
    amortizingNoMaturityLoan.amortization_schedule = some [⟨10, 50, 5⟩] ∧
    amortizingNoMaturityLoan.as_of_date ≤ (10 : ℤ) ∧
    amortizingNoMaturityLoan.get_cash_flows = [] ∧
    amortizingNoMaturityLoan.get_cash_flows ≠ [⟨10, 50, 5, 55⟩] := by
  refine ⟨rfl, rfl, by decide, rfl, by decide⟩

/-- C9 (amended): an amortizing loan with a maturity date and a non-empty
schedule emits exactly one record per schedule entry dated on or after
the as-of date, in schedule order, with `total = principal + interest`. -/
theorem amortizing_schedule_C9_amended (loan : LoanBase) (m : ℤ) (l : List SchedEntry)
    (hm : loan.maturity_date = some m) (ha : loan.is_amortizing = true)
    (hs : loan.amortization_schedule = some l) (hne : l ≠ []) :
    loan.get_cash_flows =
      (l.filter (fun p => loan.as_of_date ≤ p.date)).map
        (fun p => ⟨p.date, p.principal, p.interest, p.principal + p.interest⟩) := by
  cases l with
  | nil => exact absurd rfl hne
  | cons x xs =>
    simp [LoanBase.get_cash_flows, hm, ha, hs, listTruthy]

/-- Witness for C9 (amended): the example amortizing loan keeps only the
schedule entry at day 10 and emits it with `total = 55`. -/
theorem amortizing_schedule_C9_witness :
    amortizingLoanExample.get_cash_flows = [⟨10, 50, 5, 55⟩] := by
  rw [amortizing_schedule_C9_amended amortizingLoanExample 365 [⟨-5, 1, 1⟩, ⟨10, 50, 5⟩]
    rfl rfl rfl (by decide)]
  norm_num [amortizingLoanExample, List.filter]

/-- C5: a zero-coupon bond with a maturity date yields exactly one
record, tagged `"maturity"`, at the maturity date with
`principal = amount` and `interest = 0`. -/
theorem bond_zero_coupon_C5 (b : Bond) (m : BDate)
    (hm : b.maturity_date = some m) (hz : b.coupon_frequency = CouponFrequency.zero) :
    b.get_cash_flows = [⟨m, b.amount, 0, "maturity"⟩] := by
  simp [Bond.get_cash_flows, hm, hz]

/-- Witness for C5: the test fixture's zero-coupon bond produces the
single maturity record at 2027-01-01 with principal 1,000,000. -/
theorem bond_zero_coupon_C5_witness :
    zeroCouponBondExample.get_cash_flows = [⟨⟨2027, 1, 1⟩, 1000000, 0, "maturity"⟩] :=
  bond_zero_coupon_C5 zeroCouponBondExample ⟨2027, 1, 1⟩ rfl rfl

set_option maxHeartbeats 4000000 in
/-- C2: every non-negative day count matches exactly one of the ten
standard buckets and `_get_bucket` returns that bucket's name; a `None`
day count maps to `5+ years`; every negative day count maps to
`Overdue`. -/
theorem bucket_assignment_C2 (d : ℤ) :
    (0 ≤ d →
      (∃! b, b ∈ defineBuckets ∧ bucketMatches b d = true) ∧
      ∀ b, b ∈ defineBuckets → bucketMatches b d = true → getBucket (some d) = b.1) ∧
    getBucket none = "5+ years" ∧
    (d < 0 → getBucket (some d) = "Overdue") := by
  refine ⟨fun hd => ⟨?_, ?_⟩, rfl, fun hd => ?_⟩
  · have hcase : d = 0 ∨ (1 ≤ d ∧ d ≤ 7) ∨ (8 ≤ d ∧ d ≤ 30) ∨ (31 ≤ d ∧ d ≤ 90) ∨
        (91 ≤ d ∧ d ≤ 180) ∨ (181 ≤ d ∧ d ≤ 365) ∨ (366 ≤ d ∧ d ≤ 730) ∨
        (731 ≤ d ∧ d ≤ 1095) ∨ (1096 ≤ d ∧ d ≤ 1825) ∨ 1826 ≤ d := by omega
    rcases hcase with hc | hc | hc | hc | hc | hc | hc | hc | hc | hc
    · refine ⟨("Overnight", 0, some 0), ⟨by simp [defineBuckets], ?_⟩, ?_⟩
      · simp only [bucketMatches]; simp; omega
      · rintro y ⟨hy, hmy⟩
        simp only [defineBuckets, List.mem_cons, List.not_mem_nil, or_false] at hy
        rcases hy with rfl | rfl | rfl | rfl | rfl | rfl | rfl | rfl | rfl | rfl <;>
          first | rfl | (simp only [bucketMatches] at hmy; simp at hmy; omega)
    · refine ⟨("1-7 days", 1, some 7), ⟨by simp [defineBuckets], ?_⟩, ?_⟩
      · simp only [bucketMatches]; simp; omega
      · rintro y ⟨hy, hmy⟩
        simp only [defineBuckets, List.mem_cons, List.not_mem_nil, or_false] at hy
        rcases hy with rfl | rfl | rfl | rfl | rfl | rfl | rfl | rfl | rfl | rfl <;>
          first | rfl | (simp only [bucketMatches] at hmy; simp at hmy; omega)
    · refine ⟨("8-30 days", 8, some 30), ⟨by simp [defineBuckets], ?_⟩, ?_⟩
      · simp only [bucketMatches]; simp; omega
      · rintro y ⟨hy, hmy⟩
        simp only [defineBuckets, List.mem_cons, List.not_mem_nil, or_false] at hy
        rcases hy with rfl | rfl | rfl | rfl | rfl | rfl | rfl | rfl | rfl | rfl <;>
          first | rfl | (simp only [bucketMatches] at hmy; simp at hmy; omega)
    · refine ⟨("1-3 months", 31, some 90), ⟨by simp [defineBuckets], ?_⟩, ?_⟩
      · simp only [bucketMatches]; simp; omega
      · rintro y ⟨hy, hmy⟩
        simp only [defineBuckets, List.mem_cons, List.not_mem_nil, or_false] at hy
        rcases hy with rfl | rfl | rfl | rfl | rfl | rfl | rfl | rfl | rfl | rfl <;>
          first | rfl | (simp only [bucketMatches] at hmy; simp at hmy; omega)
    · refine ⟨("3-6 months", 91, some 180), ⟨by simp [defineBuckets], ?_⟩, ?_⟩
      · simp only [bucketMatches]; simp; omega
      · rintro y ⟨hy, hmy⟩
        simp only [defineBuckets, List.mem_cons, List.not_mem_nil, or_false] at hy
        rcases hy with rfl | rfl | rfl | rfl | rfl | rfl | rfl | rfl | rfl | rfl <;>
          first | rfl | (simp only [bucketMatches] at hmy; simp at hmy; omega)
    · refine ⟨("6-12 months", 181, some 365), ⟨by simp [defineBuckets], ?_⟩, ?_⟩
      · simp only [bucketMatches]; simp; omega
      · rintro y ⟨hy, hmy⟩
        simp only [defineBuckets, List.mem_cons, List.not_mem_nil, or_false] at hy
        rcases hy with rfl | rfl | rfl | rfl | rfl | rfl | rfl | rfl | rfl | rfl <;>
          first | rfl | (simp only [bucketMatches] at hmy; simp at hmy; omega)
    · refine ⟨("1-2 years", 366, some 730), ⟨by simp [defineBuckets], ?_⟩, ?_⟩
      · simp only [bucketMatches]; simp; omega
      · rintro y ⟨hy, hmy⟩
        simp only [defineBuckets, List.mem_cons, List.not_mem_nil, or_false] at hy
        rcases hy with rfl | rfl | rfl | rfl | rfl | rfl | rfl | rfl | rfl | rfl <;>
          first | rfl | (simp only [bucketMatches] at hmy; simp at hmy; omega)
    · refine ⟨("2-3 years", 731, some 1095), ⟨by simp [defineBuckets], ?_⟩, ?_⟩
      · simp only [bucketMatches]; simp; omega
      · rintro y ⟨hy, hmy⟩
        simp only [defineBuckets, List.mem_cons, List.not_mem_nil, or_false] at hy
        rcases hy with rfl | rfl | rfl | rfl | rfl | rfl | rfl | rfl | rfl | rfl <;>
          first | rfl | (simp only [bucketMatches] at hmy; simp at hmy; omega)
    · refine ⟨("3-5 years", 1096, some 1825), ⟨by simp [defineBuckets], ?_⟩, ?_⟩
      · simp only [bucketMatches]; simp; omega
      · rintro y ⟨hy, hmy⟩
        simp only [defineBuckets, List.mem_cons, List.not_mem_nil, or_false] at hy
        rcases hy with rfl | rfl | rfl | rfl | rfl | rfl | rfl | rfl | rfl | rfl <;>
          first | rfl | (simp only [bucketMatches] at hmy; simp at hmy; omega)
    · refine ⟨("5+ years", 1826, none), ⟨by simp [defineBuckets], ?_⟩, ?_⟩
      · simp only [bucketMatches]; simp; omega
      · rintro y ⟨hy, hmy⟩
        simp only [defineBuckets, List.mem_cons, List.not_mem_nil, or_false] at hy
        rcases hy with rfl | rfl | rfl | rfl | rfl | rfl | rfl | rfl | rfl | rfl <;>
          first | rfl | (simp only [bucketMatches] at hmy; simp at hmy; omega)
  · rintro b hb hmb
    simp only [defineBuckets, List.mem_cons, List.not_mem_nil, or_false] at hb
    rcases hb with rfl | rfl | rfl | rfl | rfl | rfl | rfl | rfl | rfl | rfl <;>
      (simp only [bucketMatches] at hmb; simp at hmb;
       simp only [getBucket, getBucketAux, defineBuckets, bucketMatches, Bool.and_eq_true,
         decide_eq_true_eq];
       split_ifs <;> first | rfl | (exfalso; omega))
  · simp only [getBucket, getBucketAux, defineBuckets, bucketMatches, Bool.and_eq_true,
      decide_eq_true_eq]
    split_ifs <;> first | rfl | omega

/-- Witness for C2: day count 100 lands in the `3-6 months` bucket,
`None` maps to `5+ years`, and `-1` maps to `Overdue`. -/
theorem bucket_assignment_C2_witness :
    getBucket (some (100 : ℤ)) = "3-6 months" ∧
    getBucket none = "5+ years" ∧
    getBucket (some (-1)) = "Overdue" :=
  ⟨((bucket_assignment_C2 100).1 (by norm_num)).2 ("3-6 months", 91, some 180)
      (by simp [defineBuckets]) (by decide),
   (bucket_assignment_C2 100).2.1,
   (bucket_assignment_C2 (-1)).2.2 (by norm_num)⟩

lemma addGapColumns_gap_eq (acc : ℚ) (rs : List (String × ℚ × ℚ)) :
    ∀ r ∈ addGapColumns acc rs, r.gap = r.asset - r.liability := by
  induction rs generalizing acc with
  | nil => intro r hr; simp [addGapColumns] at hr
  | cons x xs ih =>
    obtain ⟨b, a, l⟩ := x
    intro r hr
    simp only [addGapColumns, List.mem_cons] at hr
    rcases hr with rfl | hr
    · rfl
    · exact ih (acc + (a - l)) r hr

lemma addGapColumns_map_gap (acc : ℚ) (rs : List (String × ℚ × ℚ)) :
    (addGapColumns acc rs).map GapRow.gap = rs.map (fun t => t.2.1 - t.2.2) := by
  induction rs generalizing acc with
  | nil => rfl
  | cons x xs ih =>
    obtain ⟨b, a, l⟩ := x
    simp only [addGapColumns, List.map_cons, ih]

lemma addGapColumns_cumgap (acc : ℚ) (rs : List (String × ℚ × ℚ)) (i : ℕ)
    (h : i < (addGapColumns acc rs).length) :
    ((addGapColumns acc rs).get ⟨i, h⟩).cumgap =
      acc + (((addGapColumns acc rs).take (i + 1)).map GapRow.gap).sum := by
  induction rs generalizing acc i with
  | nil => simp [addGapColumns] at h
  | cons x xs ih =>
    obtain ⟨b, a, l⟩ := x
    cases i with
    | zero => simp [addGapColumns]
    | succ n =>
      have h' : n < (addGapColumns (acc + (a - l)) xs).length := by
        simpa [addGapColumns] using h
      have step :
          (addGapColumns acc ((b, a, l) :: xs)).get ⟨n + 1, h⟩ =
            (addGapColumns (acc + (a - l)) xs).get ⟨n, h'⟩ := rfl
      rw [step, ih (acc + (a - l)) n h']
      simp only [addGapColumns, List.take_succ_cons, List.map_cons, List.sum_cons]
      ring

lemma addGapColumns_getLast_cumgap (acc : ℚ) (rs : List (String × ℚ × ℚ)) :
    (match (addGapColumns acc rs).getLast? with
     | some r => r.cumgap
     | none => (0 : ℚ)) =
      if rs = [] then 0 else acc + (rs.map (fun t => t.2.1 - t.2.2)).sum := by
  induction rs generalizing acc with
  | nil => rfl
  | cons x xs ih =>
    obtain ⟨b, a, l⟩ := x
    cases xs with
    | nil => simp [addGapColumns]
    | cons y ys =>
      obtain ⟨b', a', l'⟩ := y
      have hlast :
          (addGapColumns acc ((b, a, l) :: (b', a', l') :: ys)).getLast? =
            (addGapColumns (acc + (a - l)) ((b', a', l') :: ys)).getLast? := by
        simp only [addGapColumns]
        rw [List.getLast?_cons_cons]
      rw [hlast]
      have := ih (acc + (a - l))
      simp only [reduceCtorEq, if_false, List.map_cons, List.sum_cons] at this ⊢
      rw [this]
      ring

lemma sum_map_sub_rows (rows : List GapRow) :
    (rows.map (fun r => r.asset - r.liability)).sum =
      (rows.map GapRow.asset).sum - (rows.map GapRow.liability).sum := by
  induction rows with
  | nil => simp
  | cons r rest ih => simp only [List.map_cons, List.sum_cons, ih]; ring

/-- Every row of the final gap table, the `TOTAL` row included,
satisfies `Gap = Asset - Liability`. -/
lemma calculate_gap_row_gap (A : Analyzer) :
    ∀ r ∈ calculate_gap A, r.gap = r.asset - r.liability := by
  intro r hr
  simp only [calculate_gap, List.mem_append, List.mem_singleton] at hr
  rcases hr with hr | rfl
  · exact addGapColumns_gap_eq 0 (pivotRows A) r hr
  · show (totalRow A).gap = (totalRow A).asset - (totalRow A).liability
    have hmap : (bucketGapRows A).map GapRow.gap =
        (bucketGapRows A).map (fun r => r.asset - r.liability) :=
      List.map_congr_left (fun r hr => addGapColumns_gap_eq 0 (pivotRows A) r hr)
    show ((bucketGapRows A).map GapRow.gap).sum = _
    rw [hmap, sum_map_sub_rows]
    rfl

/-- C3: in the bucket rows of the gap table, every row has
`Gap = Asset - Liability` and `Cumulative Gap` equal to the prefix sum of
`Gap`; the table is those rows plus a final `TOTAL` row whose Asset,
Liability and Gap are column sums and whose Cumulative Gap is the last
bucket row's cumulative value — equal to the total of all gaps, not to
the column sum of Cumulative Gap. -/
theorem gap_table_C3 (A : Analyzer) :
    (∀ i (h : i < (bucketGapRows A).length),
      ((bucketGapRows A).get ⟨i, h⟩).gap =
        ((bucketGapRows A).get ⟨i, h⟩).asset - ((bucketGapRows A).get ⟨i, h⟩).liability ∧
      ((bucketGapRows A).get ⟨i, h⟩).cumgap =
        (((bucketGapRows A).take (i + 1)).map GapRow.gap).sum) ∧
    calculate_gap A = bucketGapRows A ++ [totalRow A] ∧
    (totalRow A).bucket = "TOTAL" ∧
    (totalRow A).asset = ((bucketGapRows A).map GapRow.asset).sum ∧
    (totalRow A).liability = ((bucketGapRows A).map GapRow.liability).sum ∧
    (totalRow A).gap = ((bucketGapRows A).map GapRow.gap).sum ∧
    (∀ hne : bucketGapRows A ≠ [],
      (totalRow A).cumgap = ((bucketGapRows A).getLast hne).cumgap) ∧
    (totalRow A).cumgap = ((bucketGapRows A).map GapRow.gap).sum := by
  refine ⟨fun i h => ⟨?_, ?_⟩, rfl, rfl, rfl, rfl, rfl, fun hne => ?_, ?_⟩
  · exact addGapColumns_gap_eq 0 (pivotRows A) _ (List.get_mem _ _ _)
  · have := addGapColumns_cumgap 0 (pivotRows A) i h
    simpa [bucketGapRows] using this
  · show (match (bucketGapRows A).getLast? with
          | some r => r.cumgap
          | none => (0 : ℚ)) = ((bucketGapRows A).getLast hne).cumgap
    rw [List.getLast?_eq_getLast _ hne]
  · show (match (bucketGapRows A).getLast? with
          | some r => r.cumgap
          | none => (0 : ℚ)) = ((bucketGapRows A).map GapRow.gap).sum
    rw [bucketGapRows, addGapColumns_getLast_cumgap, addGapColumns_map_gap]
    by_cases hp : pivotRows A = []
    · simp [hp]
    · rw [if_neg hp, zero_add]

/-- Witness for C3: on the mixed book the second bucket row accumulates
`50 + 200 = 250`, and the `TOTAL` row carries the terminal cumulative
gap `170`, which equals the sum of all gaps. -/
theorem gap_table_C3_witness :
    ((bucketGapRows mixedBook).get ⟨1, by decide⟩).cumgap =
      (((bucketGapRows mixedBook).take 2).map GapRow.gap).sum ∧
    (totalRow mixedBook).cumgap = ((bucketGapRows mixedBook).map GapRow.gap).sum :=
  ⟨((gap_table_C3 mixedBook).1 1 (by decide)).2,
   (gap_table_C3 mixedBook).2.2.2.2.2.2.2⟩

/-- Counterexample to C7 as stated: the book holding one deposit of
signed amount `-100` maturing in five days has a non-zero short-term
liability sum of `-100`, and the code returns infinity there (the guard
is `> 0`, not `= 0`), while the claim's quotient would be a finite
value. -/
theorem ratios_lcr_C7_counterexample :
    (calculate_ratios negativeDepositBook).short_term_liabilities = -100 ∧
    (calculate_ratios negativeDepositBook).short_term_liabilities ≠ 0 ∧
    (calculate_ratios negativeDepositBook).liquidity_coverage_ratio = LCRValue.inf ∧
    (calculate_ratios negativeDepositBook).liquidity_coverage_ratio ≠
      LCRValue.val ((calculate_ratios negativeDepositBook).liquid_assets /
        (calculate_ratios negativeDepositBook).short_term_liabilities) := by
  have hst : (calculate_ratios negativeDepositBook).short_term_liabilities = -100 := by
    simp +decide [calculate_ratios, calculate_gap, bucketGapRows, pivotRows, occupiedBuckets,
      pivotCell, posBucket, calculateDaysToMaturity, getBucket, getBucketAux, bucketMatches,
      defineBuckets, bucketOrder, classifyPosition, convertToBaseCurrency, tableGet,
      liquidBuckets, totalRow, addGapColumns, negativeDepositBook]
  have hsplit : (calculate_ratios negativeDepositBook).liquidity_coverage_ratio =
      if 0 < (calculate_ratios negativeDepositBook).short_term_liabilities then
        LCRValue.val ((calculate_ratios negativeDepositBook).liquid_assets /
          (calculate_ratios negativeDepositBook).short_term_liabilities)
      else LCRValue.inf := rfl
  have hlcr : (calculate_ratios negativeDepositBook).liquidity_coverage_ratio =
      LCRValue.inf := by
    rw [hsplit, hst]
    norm_num
  refine ⟨hst, by rw [hst]; norm_num, hlcr, ?_⟩
  rw [hlcr]
  intro h
  exact LCRValue.noConfusion h

/-- C7 (amended): `liquidity_coverage_ratio` is the 0-30-day Asset sum
divided by the 0-30-day Liability sum when that liability sum is
positive, and equals positive infinity, not an error, whenever the
liability sum is non-positive — the zero-liability book included. -/
theorem ratios_lcr_C7_amended (A : Analyzer) :
    (calculate_ratios A).liquid_assets =
      (liquidBuckets.map (fun b => tableGet (calculate_gap A) b (fun r => r.asset))).sum ∧
    (calculate_ratios A).short_term_liabilities =
      (liquidBuckets.map (fun b => tableGet (calculate_gap A) b (fun r => r.liability))).sum ∧
    ((calculate_ratios A).short_term_liabilities ≤ 0 →
      (calculate_ratios A).liquidity_coverage_ratio = LCRValue.inf) ∧
    (0 < (calculate_ratios A).short_term_liabilities →
      (calculate_ratios A).liquidity_coverage_ratio =
        LCRValue.val
          ((calculate_ratios A).liquid_assets / (calculate_ratios A).short_term_liabilities)) := by
  have hsplit : (calculate_ratios A).liquidity_coverage_ratio =
      if 0 < (calculate_ratios A).short_term_liabilities then
        LCRValue.val
          ((calculate_ratios A).liquid_assets / (calculate_ratios A).short_term_liabilities)
      else LCRValue.inf := rfl
  refine ⟨rfl, rfl, fun h => ?_, fun h => ?_⟩
  · rw [hsplit, if_neg (not_lt.mpr h)]
  · rw [hsplit, if_pos h]

/-- Witness for C7 (amended): the loans-only book has a zero short-term
liability sum and an infinite ratio; the mixed book has a positive sum
and the finite quotient. -/
theorem ratios_lcr_C7_amended_witness :
    (calculate_ratios assetOnlyBook).short_term_liabilities = 0 ∧
    (calculate_ratios assetOnlyBook).liquidity_coverage_ratio = LCRValue.inf ∧
    (calculate_ratios mixedBook).liquidity_coverage_ratio =
      LCRValue.val ((calculate_ratios mixedBook).liquid_assets /
        (calculate_ratios mixedBook).short_term_liabilities) := by
  have h0 : (calculate_ratios assetOnlyBook).short_term_liabilities = 0 := by
    simp +decide [calculate_ratios, calculate_gap, bucketGapRows, pivotRows, occupiedBuckets,
      pivotCell, posBucket, calculateDaysToMaturity, getBucket, getBucketAux, bucketMatches,
      defineBuckets, bucketOrder, classifyPosition, convertToBaseCurrency, tableGet,
      liquidBuckets, totalRow, addGapColumns, assetOnlyBook]
  have h1 : 0 < (calculate_ratios mixedBook).short_term_liabilities := by
    simp +decide [calculate_ratios, calculate_gap, bucketGapRows, pivotRows, occupiedBuckets,
      pivotCell, posBucket, calculateDaysToMaturity, getBucket, getBucketAux, bucketMatches,
      defineBuckets, bucketOrder, classifyPosition, convertToBaseCurrency, tableGet,
      liquidBuckets, totalRow, addGapColumns, mixedBook]
  exact ⟨h0, (ratios_lcr_C7_amended assetOnlyBook).2.2.1 (le_of_eq h0),
    (ratios_lcr_C7_amended mixedBook).2.2.2 h1⟩

lemma tableGet_gap_split (rows : List GapRow)
    (hrows : ∀ r ∈ rows, r.gap = r.asset - r.liability) (b : String) :
    tableGet rows b (fun r => r.gap) =
      tableGet rows b (fun r => r.asset) - tableGet rows b (fun r => r.liability) := by
  unfold tableGet
  cases hf : rows.find? (fun r => r.bucket = b) with
  | none => norm_num
  | some r => exact hrows r (List.mem_of_find?_eq_some hf)

/-- C8: `cumulative_gap_30d` equals `gap_30d`, both being the sum of Gap
over the Overnight, 1-7-day and 8-30-day buckets (hence of
Asset − Liability over those buckets), not a running cumulative value
carried from the full bucket ladder. -/
theorem ratios_gap_30d_C8 (A : Analyzer) :
    (calculate_ratios A).cumulative_gap_30d = (calculate_ratios A).gap_30d ∧
    (calculate_ratios A).gap_30d =
      (liquidBuckets.map (fun b => tableGet (calculate_gap A) b (fun r => r.gap))).sum ∧
    (calculate_ratios A).cumulative_gap_30d =
      (liquidBuckets.map (fun b =>
        tableGet (calculate_gap A) b (fun r => r.asset) -
          tableGet (calculate_gap A) b (fun r => r.liability))).sum := by
  refine ⟨rfl, rfl, ?_⟩
  show (liquidBuckets.map (fun b => tableGet (calculate_gap A) b (fun r => r.gap))).sum = _
  rw [List.map_congr_left
    (fun b _ => tableGet_gap_split (calculate_gap A) (calculate_gap_row_gap A) b)]

/-- C6: construction of a balance-sheet instrument rejects a zero
amount, a maturity date equal to the start date, and a floating rate
without a repricing frequency, each with the message of the violated
rule; an input satisfying every construction invariant yields an
instance. -/
theorem construction_validation_C6 (i : BSIInput) :
    (i.position_id.toList.all Char.isWhitespace = false → i.amount = 0 →
      mkBalanceSheetInstrument i = Except.error "Amount cannot be zero") ∧
    (i.position_id.toList.all Char.isWhitespace = false → i.amount ≠ 0 →
      i.start_date ≤ i.as_of_date → i.maturity_date = some i.start_date →
      mkBalanceSheetInstrument i = Except.error "maturity_date must be after start_date") ∧
    (i.position_id.toList.all Char.isWhitespace = false → i.amount ≠ 0 →
      i.start_date ≤ i.as_of_date →
      (∀ m, i.maturity_date = some m → i.start_date < m) →
      (∀ r, i.repricing_date = some r → i.as_of_date ≤ r) →
      i.rate_type = RateType.floating → i.repricing_frequency = none →
      mkBalanceSheetInstrument i = Except.error "floating rate requires repricing_frequency") ∧
    (validBSIInput i → mkBalanceSheetInstrument i = Except.ok i) := by
  refine ⟨fun h1 h2 => ?_, fun h1 h2 h3 h4 => ?_, fun h1 h2 h3 h4 h5 h6 h7 => ?_, fun hv => ?_⟩
  · unfold mkBalanceSheetInstrument
    rw [if_neg (by rw [h1]; decide), if_pos h2]
  · unfold mkBalanceSheetInstrument
    rw [if_neg (by rw [h1]; decide), if_neg h2, if_neg (not_lt.mpr h3)]
    simp [h4]
  · have hc4 : (match i.maturity_date with
        | some m => decide (m ≤ i.start_date)
        | none => false) = false := by
      cases hm : i.maturity_date with
      | none => rfl
      | some m =>
        simp only [decide_eq_false_iff_not]
        exact not_le.mpr (h4 m hm)
    have hc5 : (match i.repricing_date with
        | some r => decide (r < i.as_of_date)
        | none => false) = false := by
      cases hr : i.repricing_date with
      | none => rfl
      | some r =>
        simp only [decide_eq_false_iff_not]
        exact not_lt.mpr (h5 r hr)
    unfold mkBalanceSheetInstrument
    rw [if_neg (by rw [h1]; decide), if_neg h2, if_neg (not_lt.mpr h3)]
    simp [hc4, hc5, h6, h7]
  · obtain ⟨v1, v2, v3, v4, v5, v6⟩ := hv
    have hc4 : (match i.maturity_date with
        | some m => decide (m ≤ i.start_date)
        | none => false) = false := by
      cases hm : i.maturity_date with
      | none => rfl
      | some m =>
        rw [hm] at v4
        simp only [decide_eq_false_iff_not]
        exact not_le.mpr v4
    have hc5 : (match i.repricing_date with
        | some r => decide (r < i.as_of_date)
        | none => false) = false := by
      cases hr : i.repricing_date with
      | none => rfl
      | some r =>
        rw [hr] at v5
        simp only [decide_eq_false_iff_not]
        exact not_lt.mpr v5
    have hc6 : (i.rate_type = RateType.floating && i.repricing_frequency = none) = false := by
      by_cases hf : i.rate_type = RateType.floating
      · have := (v6 hf).1
        simp [hf, this]
      · simp [hf]
    have hc7 : (i.rate_type = RateType.floating && i.repricing_date = none) = false := by
      by_cases hf : i.rate_type = RateType.floating
      · have := (v6 hf).2
        simp [hf, this]
      · simp [hf]
    unfold mkBalanceSheetInstrument
    rw [if_neg (by rw [v1]; decide), if_neg v2, if_neg (not_lt.mpr v3)]
    simp [hc4, hc5, hc6, hc7]

/-- Witness for C6: concrete inputs triggering each cited rule, and a
fully valid floating-rate input that constructs. -/
theorem construction_validation_C6_witness :
    mkBalanceSheetInstrument inputAmountZero = Except.error "Amount cannot be zero" ∧
    mkBalanceSheetInstrument inputMaturityEqStart =
      Except.error "maturity_date must be after start_date" ∧
    mkBalanceSheetInstrument inputFloatingNoFreq =
      Except.error "floating rate requires repricing_frequency" ∧
    mkBalanceSheetInstrument inputValid = Except.ok inputValid :=
  ⟨(construction_validation_C6 inputAmountZero).1 (by decide) rfl,
   (construction_validation_C6 inputMaturityEqStart).2.1 (by decide)
     (by norm_num [inputMaturityEqStart]) (by decide) rfl,
   (construction_validation_C6 inputFloatingNoFreq).2.2.1 (by decide)
     (by norm_num [inputFloatingNoFreq]) (by decide)
     (by intro m hm; injection hm with h; subst h; decide)
     (by intro r hr; injection hr with h; subst h; decide)
     rfl rfl,
   (construction_validation_C6 inputValid).2.2.2
     ⟨by decide, by norm_num [inputValid], by decide, by norm_num [inputValid],
      by norm_num [inputValid], fun _ => ⟨by decide, by decide⟩⟩⟩

/-- Counterexample to C10 as stated: the empty string lies outside the
`InstrumentType` enumeration yet the factory raises
`instrument_type is required`, not `Unknown instrument_type: ...`. -/
theorem factory_dispatch_C10_counterexample :
    instrumentTypeFromString "" = none ∧
    create_position_from_dict (some "") = Except.error "instrument_type is required" ∧
    create_position_from_dict (some "") ≠
      Except.error ("Unknown instrument_type: " ++ "") := by
  refine ⟨rfl, rfl, by simp [create_position_from_dict]⟩

/-- C10 (amended): the factory maps only the four loan/deposit variants;
each enumerated but unmapped type string (`bond`, `equity`, `cash`,
`other`) raises `No class mapping for instrument_type: ...`, and every
non-empty string outside the enumeration raises
`Unknown instrument_type: ...`. -/
theorem factory_dispatch_C10_amended :
    (∀ s, s ∈ (["bond", "equity", "cash", "other"] : List String) →
      ∃ t, instrumentTypeFromString s = some t ∧
        create_position_from_dict (some s) =
          Except.error ("No class mapping for instrument_type: " ++ t.value)) ∧
    (∀ s : String, s ≠ "" → instrumentTypeFromString s = none →
      create_position_from_dict (some s) =
        Except.error ("Unknown instrument_type: " ++ s)) := by
  constructor
  · intro s hs
    fin_cases hs
    · exact ⟨InstrumentType.bond, rfl, rfl⟩
    · exact ⟨InstrumentType.equity, rfl, rfl⟩
    · exact ⟨InstrumentType.cash, rfl, rfl⟩
    · exact ⟨InstrumentType.other, rfl, rfl⟩
  · intro s hs hn
    simp only [create_position_from_dict, hn, if_neg hs]

/-- Witness for C10 (amended): `bond` hits the missing-class-mapping
error and `zzz` the unknown-type error. -/
theorem factory_dispatch_C10_witness :
    (∃ t, instrumentTypeFromString "bond" = some t ∧
      create_position_from_dict (some "bond") =
        Except.error ("No class mapping for instrument_type: " ++ t.value)) ∧
    create_position_from_dict (some "zzz") =
      Except.error ("Unknown instrument_type: " ++ "zzz") :=
  ⟨factory_dispatch_C10_amended.1 "bond" (by simp),
   factory_dispatch_C10_amended.2 "zzz" (by simp) rfl⟩

end ALM
